import Mathlib

/-!
Verification of the `memories` python starter service (`examples/python-starter/app.py`).

The file shallowly embeds the service's pure request/response logic:

* JSON values are the inductive `Json` below; Python truthiness is `Json.truthy`.
* The process environment (`os.getenv`) is a function `String → Option String`.
* The HTTP transport performed by `httpx` inside `_sdk_post` is abstracted by the
  `Transport` parameter: either the request raised an `httpx.HTTPError`
  (`Transport.failure msg`), or a response arrived with a status code and either a
  parsed JSON body or `none` when `response.json()` raised `ValueError`.
* `raise HTTPException(status_code, detail)` becomes the `HTTPError` structure carried
  in the `Except` error channel; handler outcomes are `HandlerResult` (an unhandled
  runtime exception, such as `len` applied to an unsized value, is `HandlerResult.crash`).

Python's leading-underscore names (`_required_env`, `_optional`, `_scope`, `_base_url`,
`_sdk_post`) are embedded without the leading underscore.
-/

set_option autoImplicit false

namespace MemoriesStarter

/-- Python `str.strip()`: drop leading and trailing whitespace. (Defined on the
character list so that the kernel can evaluate it on literals.) -/
def pyStrip (s : String) : String :=
  String.mk (((s.data.dropWhile Char.isWhitespace).reverse.dropWhile Char.isWhitespace).reverse)

/-- A JSON value as produced by `response.json()` / consumed by `json.dumps`.
Objects keep insertion order, matching Python dicts. -/
inductive Json where
  | null : Json
  | bool : Bool → Json
  | num : Int → Json
  | str : String → Json
  | arr : List Json → Json
  | obj : List (String × Json) → Json

/-- Python truthiness of a JSON value (`None`, `False`, `0`, `""`, `[]`, `{}` are falsy). -/
def Json.truthy : Json → Bool
  | .null => false
  | .bool b => b
  | .num n => n != 0
  | .str s => s != ""
  | .arr [] => false
  | .arr (_ :: _) => true
  | .obj [] => false
  | .obj (_ :: _) => true

/-- First-match lookup in an association list (Python dicts have unique keys, so this
is dict key lookup). -/
def assocLookup {α : Type} : List (String × α) → String → Option α
  | [], _ => none
  | (k, v) :: rest, key => if k = key then some v else assocLookup rest key

/-- `data.get(key)` on a JSON value: `some` the mapped value when `data` is an object
containing the key, otherwise `none`. -/
def Json.getKey : Json → String → Option Json
  | .obj kvs, k => assocLookup kvs k
  | _, _ => none

/-- Python `len` on a JSON value: defined for strings, arrays and objects; `none`
models the `TypeError` raised on unsized values. -/
def pyLen : Json → Option Nat
  | .str s => some s.length
  | .arr xs => some xs.length
  | .obj kvs => some kvs.length
  | _ => none

/-- Python `a or b` for optional strings (`None` and `""` are falsy). -/
def pyOrStr (a b : Option String) : Option String :=
  match a with
  | some s => if s = "" then b else some s
  | none => b

/-- Python `a or b` where `a` is the result of `dict.get` (absent key gives `None`)
and `b` is a JSON default. -/
def pyOrJson (a : Option Json) (b : Json) : Json :=
  match a with
  | some v => if v.truthy then v else b
  | none => b

/-- `raise HTTPException(status_code=..., detail=...)`. -/
structure HTTPError where
  status : Nat
  detail : Json

/-- Outcome of the `httpx` POST inside `_sdk_post`: a transport-level failure
(`httpx.HTTPError`), or a response with a status code and an optional parsed JSON
body (`none` when the body is not valid JSON). -/
inductive Transport where
  | failure : String → Transport
  | response : Nat → Option Json → Transport

/-- Outcome of one request handler: a returned JSON body, a raised `HTTPException`,
or an unhandled runtime exception. -/
inductive HandlerResult where
  | success : Json → HandlerResult
  | failure : HTTPError → HandlerResult
  | crash : HandlerResult

/-- The `detail` dict raised by `_required_env` for a missing variable. -/
def missingEnvDetail (name : String) : Json :=
  .obj [("ok", .bool false),
    ("error", .obj [("type", .str "validation_error"), ("code", .str "MISSING_ENV"),
      ("message", .str ("Missing environment variable: " ++ name))])]

/-- The `detail` dict raised on `httpx.HTTPError`. -/
def networkErrorDetail (msg : String) : Json :=
  .obj [("ok", .bool false),
    ("error", .obj [("type", .str "network_error"), ("code", .str "UPSTREAM_REQUEST_FAILED"),
      ("message", .str msg)])]

/-- The `detail` dict raised when the upstream body fails to parse as JSON. -/
def invalidJsonDetail : Json :=
  .obj [("ok", .bool false),
    ("error", .obj [("type", .str "http_error"), ("code", .str "INVALID_JSON"),
      ("message", .str "Upstream returned non-JSON response")])]

/-- The substituted error object when an envelope reports failure but carries a falsy
`error` field. -/
def defaultUpstreamError : Json :=
  .obj [("type", .str "http_error"), ("code", .str "UPSTREAM_ERROR"),
    ("message", .str "Unknown upstream error")]

/-- The `detail` dict raised for a non-envelope body with HTTP status `>= 400`. -/
def httpStatusErrorDetail (status : Nat) (data : Json) : Json :=
  .obj [("ok", .bool false),
    ("error", .obj [("type", .str "http_error"), ("code", .str ("HTTP_" ++ toString status)),
      ("message", .str "Upstream request failed"), ("details", data)])]

/-- `_required_env(name)`: `os.getenv(name, "").strip()`, raising HTTP 500 with a
`validation_error` / `MISSING_ENV` detail when the result is empty. -/
def required_env (env : String → Option String) (name : String) : Except HTTPError String :=
  let value := pyStrip ((env name).getD "")
  if value = "" then .error ⟨500, missingEnvDetail name⟩ else .ok value

/-- `_optional(value)`: `None` stays `None`; otherwise strip, and an empty result
becomes `None`. -/
def optionalTrim : Option String → Option String
  | none => none
  | some v => if pyStrip v = "" then none else some (pyStrip v)

/-- One `if resolved: scope[key] = resolved` statement of `_scope`: the entry is
inserted exactly when the resolved value is truthy. -/
def scopeEntry (k : String) : Option String → List (String × String)
  | some v => if v = "" then [] else [(k, v)]
  | none => []

/-- `_scope(tenant_id, user_id, project_id)`: each field resolves to the trimmed
override if truthy, else the trimmed environment default if truthy; truthy resolved
fields are inserted in order `tenantId`, `userId`, `projectId`. -/
def scope (env : String → Option String)
    (tenant_id user_id project_id : Option String) : List (String × String) :=
  scopeEntry "tenantId" (pyOrStr (optionalTrim tenant_id) (optionalTrim (env "MEMORIES_TENANT_ID"))) ++
  scopeEntry "userId" (pyOrStr (optionalTrim user_id) (optionalTrim (env "MEMORIES_USER_ID"))) ++
  scopeEntry "projectId" (pyOrStr (optionalTrim project_id) (optionalTrim (env "MEMORIES_PROJECT_ID")))

/-- `scope or None`, JSON-encoded: an empty scope dict is replaced by `None`
(serialized as JSON `null`); a non-empty one is the JSON object. -/
def scopeJson (sc : List (String × String)) : Json :=
  match sc with
  | [] => .null
  | _ :: _ => .obj (sc.map (fun kv => (kv.1, Json.str kv.2)))

/-- `_base_url()`: the trimmed `MEMORIES_BASE_URL` if truthy, else the fixed default. -/
def base_url (env : String → Option String) : String :=
  match optionalTrim (env "MEMORIES_BASE_URL") with
  | some s => if s = "" then "https://memories.sh" else s
  | none => "https://memories.sh"

/-- Python `str.rstrip('/')`: remove every trailing `'/'`. -/
def rstripSlash (s : String) : String :=
  String.mk ((s.data.reverse.dropWhile (fun c => c == '/')).reverse)

/-- The URL built by `_sdk_post`: `f"{_base_url().rstrip('/')}{endpoint}"`. -/
def sdk_url (env : String → Option String) (endpoint : String) : String :=
  rstripSlash (base_url env) ++ endpoint

/-- Whether a parsed body is envelope-shaped:
`isinstance(data, dict) and "ok" in data and "data" in data`. -/
def isEnvelope : Json → Bool
  | .obj kvs => (assocLookup kvs "ok").isSome && (assocLookup kvs "data").isSome
  | _ => false

/-- `_sdk_post(endpoint, payload)` with the network call abstracted by `t`.
The URL posted to is `sdk_url env endpoint` and the JSON body is `payload`; the
classification of the outcome follows the source line by line. -/
def sdk_post (env : String → Option String) (endpoint : String) (payload : Json)
    (t : Transport) : Except HTTPError Json :=
  match required_env env "MEMORIES_API_KEY" with
  | .error e => .error e
  | .ok _apiKey =>
    match t with
    | .failure msg => .error ⟨502, networkErrorDetail msg⟩
    | .response status body =>
      match body with
      | none => .error ⟨502, invalidJsonDetail⟩
      | some data =>
        if isEnvelope data then
          if !((data.getKey "ok").getD (.bool false)).truthy then
            .error ⟨status, .obj [("ok", .bool false),
              ("error", pyOrJson (data.getKey "error") defaultUpstreamError)]⟩
          else
            .ok ((data.getKey "data").getD .null)
        else if 400 ≤ status then
          .error ⟨status, httpStatusErrorDetail status data⟩
        else
          .ok data

/-- A validated `AddMemoryRequest` pydantic model instance. -/
structure AddMemoryRequest where
  content : String
  type : String
  tags : List String
  tenantId : Option String
  userId : Option String
  projectId : Option String

/-- The `type` enumeration of `AddMemoryRequest`. -/
def memoryTypes : List String := ["rule", "decision", "fact", "note", "skill"]

/-- Pydantic validation of the `/memories/add` body: `content` needs length at least 1,
`type` defaults to `"note"` when omitted and must otherwise belong to the enumeration;
`tags` and the scope overrides pass through. -/
def parse_add_memory (content : String) (type? : Option String) (tags : List String)
    (tenantId userId projectId : Option String) : Option AddMemoryRequest :=
  if content.length < 1 then none
  else
    match type? with
    | none => some ⟨content, "note", tags, tenantId, userId, projectId⟩
    | some ty =>
      if ty ∈ memoryTypes then some ⟨content, ty, tags, tenantId, userId, projectId⟩ else none

/-- The body dict built by `add_memory` and posted upstream. -/
def add_memory_body (env : String → Option String) (p : AddMemoryRequest) : Json :=
  .obj [
    ("content", .str (pyStrip p.content)),
    ("type", .str p.type),
    ("tags", .arr (p.tags.filterMap fun tag =>
      if pyStrip tag = "" then none else some (Json.str (pyStrip tag)))),
    ("scope", scopeJson (scope env p.tenantId p.userId p.projectId))]

/-- `GET /health`: no upstream call, cannot fail. -/
def health (env : String → Option String) : Json :=
  .obj [("ok", .bool true), ("service", .str "memories-python-starter"),
    ("baseUrl", .str (base_url env))]

/-- `POST /memories/add`. -/
def add_memory (env : String → Option String) (p : AddMemoryRequest)
    (t : Transport) : HandlerResult :=
  match sdk_post env "/api/sdk/v1/memories/add" (add_memory_body env p) t with
  | .error e => .failure e
  | .ok result => .success (.obj [("ok", .bool true), ("result", result)])

/-- Validated query parameters of `GET /memories/search`. -/
structure SearchParams where
  q : String
  limit : Int
  type? : Option String
  layer? : Option String
  tenantId : Option String
  userId : Option String
  projectId : Option String

/-- The body dict built by `search_memories`: `query`, `limit`, `scope` always present;
`type` and `layer` appended only when truthy. -/
def search_body (env : String → Option String) (p : SearchParams) : Json :=
  .obj ([("query", .str p.q), ("limit", .num p.limit),
      ("scope", scopeJson (scope env p.tenantId p.userId p.projectId))] ++
    (match p.type? with
      | some s => if s = "" then [] else [("type", Json.str s)]
      | none => []) ++
    (match p.layer? with
      | some s => if s = "" then [] else [("layer", Json.str s)]
      | none => []))

/-- `result.get("memories", []) if isinstance(result, dict) else []`. -/
def get_memories_field (result : Json) : Json :=
  match result with
  | .obj kvs => (assocLookup kvs "memories").getD (.arr [])
  | _ => .arr []

/-- `GET /memories/search`. `len(memories)` crashes when the extracted value is
unsized, mirroring the uncaught `TypeError`. -/
def search_memories (env : String → Option String) (p : SearchParams)
    (t : Transport) : HandlerResult :=
  match sdk_post env "/api/sdk/v1/memories/search" (search_body env p) t with
  | .error e => .failure e
  | .ok result =>
    match pyLen (get_memories_field result) with
    | none => .crash
    | some n =>
      .success (.obj [("ok", .bool true), ("count", .num (Int.ofNat n)),
        ("memories", get_memories_field result)])

/-- Validated query parameters of `GET /context`. -/
structure ContextParams where
  q : String
  mode : String
  strategy : String
  limit : Int
  graphDepth : Int
  graphLimit : Int
  tenantId : Option String
  userId : Option String
  projectId : Option String

/-- The body dict built by `get_context`. -/
def context_body (env : String → Option String) (p : ContextParams) : Json :=
  .obj [("query", .str p.q), ("mode", .str p.mode), ("strategy", .str p.strategy),
    ("limit", .num p.limit), ("graphDepth", .num p.graphDepth),
    ("graphLimit", .num p.graphLimit),
    ("scope", scopeJson (scope env p.tenantId p.userId p.projectId))]

/-- `GET /context`. -/
def get_context (env : String → Option String) (p : ContextParams)
    (t : Transport) : HandlerResult :=
  match sdk_post env "/api/sdk/v1/context/get" (context_body env p) t with
  | .error e => .failure e
  | .ok result =>
    let rules := match result with
      | .obj kvs => (assocLookup kvs "rules").getD (.arr [])
      | _ => .arr []
    let memories := match result with
      | .obj kvs => (assocLookup kvs "memories").getD (.arr [])
      | _ => .arr []
    let trace := match result with
      | .obj kvs => (assocLookup kvs "trace").getD .null
      | _ => .null
    .success (.obj [("ok", .bool true), ("rules", rules), ("memories", memories),
      ("trace", trace)])

/-- The response envelope invariant for one handler outcome: a returned body carries
top-level `ok = true`, a raised `HTTPException` detail carries top-level `ok = false`. -/
def envelopeOk : HandlerResult → Prop
  | .success b => b.getKey "ok" = some (.bool true)
  | .failure e => e.detail.getKey "ok" = some (.bool false)
  | .crash => True

/-- Modelled from the spec (section 4.2), for refinement comparison with `scope`:
each scope field is the override if non-empty after trimming, else the environment
default if non-empty after trimming, else absent. -/
def specResolve (override dflt : Option String) : Option String :=
  if pyStrip (override.getD "") ≠ "" then some (pyStrip (override.getD ""))
  else if pyStrip (dflt.getD "") ≠ "" then some (pyStrip (dflt.getD ""))
  else none

/-- A concrete environment holding only a non-blank API key. -/
def envK : String → Option String :=
  fun n => if n = "MEMORIES_API_KEY" then some "k" else none

/-! ## Helper lemmas -/

theorem pyStrip_empty : pyStrip "" = "" := rfl

theorem required_env_ok_of_ne (env : String → Option String) (name : String)
    (h : pyStrip ((env name).getD "") ≠ "") :
    required_env env name = .ok (pyStrip ((env name).getD "")) := by
  simp only [required_env]
  rw [if_neg h]

theorem required_env_error_of_eq (env : String → Option String) (name : String)
    (h : pyStrip ((env name).getD "") = "") :
    required_env env name = .error ⟨500, missingEnvDetail name⟩ := by
  simp only [required_env]
  rw [if_pos h]

theorem sdk_post_error_ok_field (env : String → Option String) (ep : String) (pl : Json)
    (t : Transport) (e : HTTPError) (h : sdk_post env ep pl t = .error e) :
    e.detail.getKey "ok" = some (.bool false) := by
  unfold sdk_post at h
  by_cases hc : pyStrip ((env "MEMORIES_API_KEY").getD "") = ""
  · rw [required_env_error_of_eq env _ hc] at h
    simp at h
    subst h
    simp [missingEnvDetail, Json.getKey, assocLookup]
  · rw [required_env_ok_of_ne env _ hc] at h
    cases t with
    | failure msg =>
      simp at h
      subst h
      simp [networkErrorDetail, Json.getKey, assocLookup]
    | response status body =>
      cases body with
      | none =>
        simp at h
        subst h
        simp [invalidJsonDetail, Json.getKey, assocLookup]
      | some data =>
        simp only [] at h
        split at h
        · split at h
          · simp at h
            subst h
            simp [Json.getKey, assocLookup]
          · simp at h
        · split at h
          · simp at h
            subst h
            simp [httpStatusErrorDetail, Json.getKey, assocLookup]
          · simp at h

/-- C1: every outbound response carries a top-level `ok` boolean: `true` on every
success body returned by a handler, `false` on the detail of every raised failure
(missing configuration, transport error, invalid upstream JSON, upstream-reported
error, non-envelope error status). -/
theorem C1_every_response_has_ok_boolean (env : String → Option String) :
    (health env).getKey "ok" = some (.bool true) ∧
    (∀ p t, envelopeOk (add_memory env p t)) ∧
    (∀ p t, envelopeOk (search_memories env p t)) ∧
    (∀ p t, envelopeOk (get_context env p t)) := by
  refine ⟨by simp [health, Json.getKey, assocLookup], ?_, ?_, ?_⟩
  · intro p t
    unfold add_memory
    cases h : sdk_post env "/api/sdk/v1/memories/add" (add_memory_body env p) t with
    | error e => simpa [envelopeOk] using sdk_post_error_ok_field _ _ _ _ _ h
    | ok r => simp [envelopeOk, Json.getKey, assocLookup]
  · intro p t
    unfold search_memories
    cases h : sdk_post env "/api/sdk/v1/memories/search" (search_body env p) t with
    | error e => simpa [envelopeOk] using sdk_post_error_ok_field _ _ _ _ _ h
    | ok r =>
      cases hl : pyLen (get_memories_field r) with
      | none => simp [envelopeOk, hl]
      | some n => simp [envelopeOk, hl, Json.getKey, assocLookup]
  · intro p t
    unfold get_context
    cases h : sdk_post env "/api/sdk/v1/context/get" (context_body env p) t with
    | error e => simpa [envelopeOk] using sdk_post_error_ok_field _ _ _ _ _ h
    | ok r => simp [envelopeOk, Json.getKey, assocLookup]

/-- C4: an envelope-shaped body (`ok` and `data` keys both present) with `ok = true`
makes the upstream client return exactly the value of the `data` field. -/
theorem C4_envelope_true_returns_data (env : String → Option String) (ep : String)
    (pl : Json) (status : Nat) (kvs : List (String × Json)) (d : Json)
    (hk : pyStrip ((env "MEMORIES_API_KEY").getD "") ≠ "")
    (hok : assocLookup kvs "ok" = some (.bool true))
    (hdata : assocLookup kvs "data" = some d) :
    sdk_post env ep pl (.response status (some (.obj kvs))) = .ok d := by
  unfold sdk_post
  rw [required_env_ok_of_ne env _ hk]
  have henv : isEnvelope (.obj kvs) = true := by simp [isEnvelope, hok, hdata]
  simp [henv, Json.getKey, hok, hdata, Json.truthy]

/-- Witness for C4 at the spec's example: `{"ok": true, "data": {"x": 1}}` at HTTP 200
yields `{"x": 1}`. -/
theorem C4_envelope_true_returns_data_witness :
    sdk_post envK "/api/sdk/v1/memories/add" .null
        (.response 200 (some (.obj [("ok", .bool true), ("data", .obj [("x", .num 1)])]))) =
      .ok (.obj [("x", .num 1)]) :=
  C4_envelope_true_returns_data envK "/api/sdk/v1/memories/add" .null 200
    [("ok", .bool true), ("data", .obj [("x", .num 1)])] (.obj [("x", .num 1)])
    (by decide) rfl rfl

/-- C5: a non-envelope body fails with `http_error` / `HTTP_<status>` echoing the raw
body as `details` when the upstream status is at least 400, and is returned unchanged
otherwise. -/
theorem C5_non_envelope_classification (env : String → Option String) (ep : String)
    (pl : Json) (status : Nat) (data : Json)
    (hk : pyStrip ((env "MEMORIES_API_KEY").getD "") ≠ "")
    (hne : isEnvelope data = false) :
    (400 ≤ status →
      sdk_post env ep pl (.response status (some data)) =
        .error ⟨status, .obj [("ok", .bool false),
          ("error", .obj [("type", .str "http_error"),
            ("code", .str ("HTTP_" ++ toString status)),
            ("message", .str "Upstream request failed"), ("details", data)])]⟩) ∧
    (status < 400 → sdk_post env ep pl (.response status (some data)) = .ok data) := by
  constructor
  · intro hs
    unfold sdk_post
    rw [required_env_ok_of_ne env _ hk]
    simp [hne, hs, httpStatusErrorDetail]
  · intro hs
    unfold sdk_post
    rw [required_env_ok_of_ne env _ hk]
    simp [hne, Nat.not_le.mpr hs]

/-- Witness for C5 at the spec's example: HTTP 503 with body `{"detail": "down"}`
fails with `http_error` / `HTTP_503` and the body echoed as `details`. -/
theorem C5_non_envelope_classification_witness :
    sdk_post envK "/api/sdk/v1/memories/add" .null
        (.response 503 (some (.obj [("detail", .str "down")]))) =
      .error ⟨503, .obj [("ok", .bool false),
        ("error", .obj [("type", .str "http_error"), ("code", .str "HTTP_503"),
          ("message", .str "Upstream request failed"),
          ("details", .obj [("detail", .str "down")])])]⟩ :=
  (C5_non_envelope_classification envK "/api/sdk/v1/memories/add" .null 503
    (.obj [("detail", .str "down")]) (by decide) rfl).1 (by decide)

/-- C10: an envelope-shaped body whose `ok` is falsy and whose `error` field is
missing or falsy fails with the substituted default error object
`{type: http_error, code: UPSTREAM_ERROR, message: Unknown upstream error}` at the
upstream's HTTP status. -/
theorem C10_falsy_error_substituted (env : String → Option String) (ep : String)
    (pl : Json) (status : Nat) (kvs : List (String × Json)) (okv : Json)
    (hk : pyStrip ((env "MEMORIES_API_KEY").getD "") ≠ "")
    (hok : assocLookup kvs "ok" = some okv) (hfalsy : okv.truthy = false)
    (hdata : (assocLookup kvs "data").isSome = true)
    (herr : ∀ e0, assocLookup kvs "error" = some e0 → e0.truthy = false) :
    sdk_post env ep pl (.response status (some (.obj kvs))) =
      .error ⟨status, .obj [("ok", .bool false), ("error", defaultUpstreamError)]⟩ := by
  unfold sdk_post
  rw [required_env_ok_of_ne env _ hk]
  have henv : isEnvelope (.obj kvs) = true := by simp [isEnvelope, hok, hdata]
  have hperr : pyOrJson (assocLookup kvs "error") defaultUpstreamError =
      defaultUpstreamError := by
    cases he : assocLookup kvs "error" with
    | none => simp [pyOrJson]
    | some e0 => simp [pyOrJson, herr e0 he]
  simp [henv, Json.getKey, hok, hfalsy, hperr]

/-- Witness for C10: `{"ok": false, "data": null}` (no `error` key) at HTTP 500 fails
with the default substituted error object. -/
theorem C10_falsy_error_substituted_witness :
    sdk_post envK "/api/sdk/v1/memories/add" .null
        (.response 500 (some (.obj [("ok", .bool false), ("data", .null)]))) =
      .error ⟨500, .obj [("ok", .bool false), ("error", defaultUpstreamError)]⟩ :=
  C10_falsy_error_substituted envK "/api/sdk/v1/memories/add" .null 500
    [("ok", .bool false), ("data", .null)] (.bool false) (by decide) rfl rfl rfl
    (fun e0 he => by simp [assocLookup] at he)

/-- Counterexample to C2: the body `{"ok": false, "error": {"type": "t", "code": "c",
"message": "m"}}` at HTTP 200 has no `data` key, so it is not envelope-shaped; the
upstream client returns it unchanged as a success instead of failing. -/
theorem C2_counterexample :
    sdk_post envK "/api/sdk/v1/memories/add" .null
        (.response 200 (some (.obj [("ok", .bool false),
          ("error", .obj [("type", .str "t"), ("code", .str "c"), ("message", .str "m")])]))) =
      .ok (.obj [("ok", .bool false),
        ("error", .obj [("type", .str "t"), ("code", .str "c"), ("message", .str "m")])]) :=
  rfl

/-- C2 amended: envelope-shape detection requires both an `ok` key and a `data` key.
A body `{ok: false, data: <anything>, error: {type, code, message}}` fails as exactly
that error object at the upstream's original status (in particular at 200, so shape
detection takes precedence over status inspection); but a body `{ok: false, error:
...}` without a `data` key is not envelope-shaped and is returned unchanged at
HTTP 200. -/
theorem C2_amended_envelope_requires_data_key (env : String → Option String)
    (ep : String) (pl : Json) (status : Nat) (tv cv mv : String) (dval : Json)
    (hk : pyStrip ((env "MEMORIES_API_KEY").getD "") ≠ "") :
    sdk_post env ep pl (.response status (some (.obj [("ok", .bool false), ("data", dval),
        ("error", .obj [("type", .str tv), ("code", .str cv), ("message", .str mv)])]))) =
      .error ⟨status, .obj [("ok", .bool false),
        ("error", .obj [("type", .str tv), ("code", .str cv), ("message", .str mv)])]⟩ ∧
    sdk_post env ep pl (.response 200 (some (.obj [("ok", .bool false),
        ("error", .obj [("type", .str tv), ("code", .str cv), ("message", .str mv)])]))) =
      .ok (.obj [("ok", .bool false),
        ("error", .obj [("type", .str tv), ("code", .str cv), ("message", .str mv)])]) := by
  constructor
  · unfold sdk_post
    rw [required_env_ok_of_ne env _ hk]
    simp [isEnvelope, assocLookup, Json.getKey, Json.truthy, pyOrJson]
  · unfold sdk_post
    rw [required_env_ok_of_ne env _ hk]
    simp [isEnvelope, assocLookup]

/-- Witness for the amended C2: with a `data: null` key present the same error object
is surfaced at status 200; without it the raw body comes back. -/
theorem C2_amended_envelope_requires_data_key_witness :
    sdk_post envK "/e" .null (.response 200 (some (.obj [("ok", .bool false), ("data", .null),
        ("error", .obj [("type", .str "t"), ("code", .str "c"), ("message", .str "m")])]))) =
      .error ⟨200, .obj [("ok", .bool false),
        ("error", .obj [("type", .str "t"), ("code", .str "c"), ("message", .str "m")])]⟩ :=
  (C2_amended_envelope_requires_data_key envK "/e" .null 200 "t" "c" "m" .null
    (by decide)).1

/-- The entry a resolved scope field contributes when the resolver guarantees the
value is non-empty. -/
def entryOf (k : String) : Option String → List (String × String)
  | some v => [(k, v)]
  | none => []

theorem specResolve_ne_empty (o d : Option String) (v : String)
    (h : specResolve o d = some v) : v ≠ "" := by
  unfold specResolve at h
  split at h
  next h1 => cases h; exact h1
  next h1 =>
    split at h
    next h2 => cases h; exact h2
    next h2 => cases h

theorem pyOr_trim_eq_specResolve (o d : Option String) :
    pyOrStr (optionalTrim o) (optionalTrim d) = specResolve o d := by
  cases o with
  | none =>
    cases d with
    | none => simp [pyOrStr, optionalTrim, specResolve, pyStrip_empty]
    | some dv =>
      by_cases hd : pyStrip dv = "" <;>
        simp [pyOrStr, optionalTrim, specResolve, pyStrip_empty, hd]
  | some ov =>
    by_cases ho : pyStrip ov = ""
    · cases d with
      | none => simp [pyOrStr, optionalTrim, specResolve, pyStrip_empty, ho]
      | some dv =>
        by_cases hd : pyStrip dv = "" <;>
          simp [pyOrStr, optionalTrim, specResolve, ho, hd]
    · simp [pyOrStr, optionalTrim, specResolve, ho]

theorem scopeEntry_specResolve (k : String) (o d : Option String) :
    scopeEntry k (specResolve o d) = entryOf k (specResolve o d) := by
  cases h : specResolve o d with
  | none => rfl
  | some v => simp [scopeEntry, entryOf, specResolve_ne_empty o d v h]

/-- The scope built by `_scope` refines the spec's per-field resolution rule. -/
theorem scope_eq_spec (env : String → Option String) (t u p : Option String) :
    scope env t u p =
      entryOf "tenantId" (specResolve t (env "MEMORIES_TENANT_ID")) ++
      entryOf "userId" (specResolve u (env "MEMORIES_USER_ID")) ++
      entryOf "projectId" (specResolve p (env "MEMORIES_PROJECT_ID")) := by
  unfold scope
  rw [pyOr_trim_eq_specResolve, pyOr_trim_eq_specResolve, pyOr_trim_eq_specResolve,
    scopeEntry_specResolve, scopeEntry_specResolve, scopeEntry_specResolve]

theorem mem_three {α : Type} {x : α} {l1 l2 l3 : List α}
    (h : x ∈ l1 ++ l2 ++ l3) : x ∈ l1 ∨ x ∈ l2 ∨ x ∈ l3 := by
  simp only [List.mem_append] at h
  tauto

theorem entryOf_value {k : String} {o : Option String} {kv : String × String}
    (h : kv ∈ entryOf k o) : o = some kv.2 := by
  cases o with
  | none => simp [entryOf] at h
  | some v =>
    simp [entryOf] at h
    rw [h]

theorem scope_values_nonempty (env : String → Option String) (t u p : Option String) :
    ∀ kv, kv ∈ scope env t u p → kv.2 ≠ "" := by
  intro kv hkv
  rw [scope_eq_spec] at hkv
  rcases mem_three hkv with h | h | h
  · exact specResolve_ne_empty _ _ _ (entryOf_value h)
  · exact specResolve_ne_empty _ _ _ (entryOf_value h)
  · exact specResolve_ne_empty _ _ _ (entryOf_value h)

theorem scope_lookup_fields (env : String → Option String) (t u p : Option String) :
    assocLookup (scope env t u p) "tenantId" = specResolve t (env "MEMORIES_TENANT_ID") ∧
    assocLookup (scope env t u p) "userId" = specResolve u (env "MEMORIES_USER_ID") ∧
    assocLookup (scope env t u p) "projectId" = specResolve p (env "MEMORIES_PROJECT_ID") := by
  rw [scope_eq_spec]
  refine ⟨?_, ?_, ?_⟩ <;>
  · cases specResolve t (env "MEMORIES_TENANT_ID") <;>
    cases specResolve u (env "MEMORIES_USER_ID") <;>
    cases specResolve p (env "MEMORIES_PROJECT_ID") <;>
      simp [entryOf, assocLookup]

/-- Counterexample to C3: with no overrides and no environment defaults the body
built by `add_memory` still contains the `scope` key, mapped to JSON `null` — the
field is not omitted and is sent as null. -/
theorem C3_counterexample :
    (add_memory_body envK ⟨"hi", "note", [], none, none, none⟩).getKey "scope" =
      some Json.null :=
  rfl

/-- C3 amended: each scope field resolves to the override if non-empty after
trimming, else the environment default if non-empty after trimming, else absent, and
a resolved-absent field is omitted from the scope object (never null or empty, and
every present value is a non-empty string); but when all three resolved fields are
absent the upstream request body carries the `scope` key with value JSON `null`
(the empty map is replaced by null rather than the field being omitted). -/
theorem C3_amended_scope_resolution (env : String → Option String)
    (t u p : Option String) :
    assocLookup (scope env t u p) "tenantId" = specResolve t (env "MEMORIES_TENANT_ID") ∧
    assocLookup (scope env t u p) "userId" = specResolve u (env "MEMORIES_USER_ID") ∧
    assocLookup (scope env t u p) "projectId" = specResolve p (env "MEMORIES_PROJECT_ID") ∧
    (∀ kv, kv ∈ scope env t u p → kv.2 ≠ "") ∧
    (scope env t u p = [] → ∀ c ty tags,
      (add_memory_body env ⟨c, ty, tags, t, u, p⟩).getKey "scope" = some .null) ∧
    (scope env t u p ≠ [] → ∀ c ty tags,
      (add_memory_body env ⟨c, ty, tags, t, u, p⟩).getKey "scope" =
        some (.obj ((scope env t u p).map fun kv => (kv.1, Json.str kv.2)))) := by
  obtain ⟨h1, h2, h3⟩ := scope_lookup_fields env t u p
  refine ⟨h1, h2, h3, scope_values_nonempty env t u p, ?_, ?_⟩
  · intro hsc c ty tags
    simp [add_memory_body, Json.getKey, assocLookup, hsc, scopeJson]
  · intro hsc c ty tags
    cases hsc2 : scope env t u p with
    | nil => exact absurd hsc2 hsc
    | cons a l => simp [add_memory_body, Json.getKey, assocLookup, hsc2, scopeJson]

/-- Witness for the amended C3: all fields absent gives a `scope` key mapped to
null; an override present after trimming wins over the (absent) default. -/
theorem C3_amended_scope_resolution_witness :
    (add_memory_body (fun _ => none) ⟨"hi", "note", [], none, none, none⟩).getKey "scope" =
        some Json.null ∧
    assocLookup (scope (fun _ => none) (some " acme ") none none) "tenantId" =
        some "acme" :=
  ⟨(C3_amended_scope_resolution (fun _ => none) none none none).2.2.2.2.1 rfl "hi" "note" [],
   ((C3_amended_scope_resolution (fun _ => none) (some " acme ") none none).1).trans
     (by decide)⟩

/-- C6: for every request accepted by validation, the body posted by `add_memory`
has `content` trimmed, `tags` trimmed with empties dropped (order preserved), and
`type` equal to `"note"` whenever the input omitted the field. -/
theorem C6_add_memory_body_fields (content : String) (type? : Option String)
    (tags : List String) (t u p : Option String) (req : AddMemoryRequest)
    (env : String → Option String)
    (h : parse_add_memory content type? tags t u p = some req) :
    (add_memory_body env req).getKey "content" = some (.str (pyStrip content)) ∧
    (add_memory_body env req).getKey "tags" =
      some (.arr (tags.filterMap fun tag =>
        if pyStrip tag = "" then none else some (Json.str (pyStrip tag)))) ∧
    (type? = none → (add_memory_body env req).getKey "type" = some (.str "note")) := by
  unfold parse_add_memory at h
  split at h
  · cases h
  · cases type? with
    | none =>
      cases h
      refine ⟨?_, ?_, fun _ => ?_⟩ <;> simp [add_memory_body, Json.getKey, assocLookup]
    | some ty =>
      by_cases hty : ty ∈ memoryTypes
      · simp [hty] at h
        subst h
        refine ⟨?_, ?_, fun hn => Option.noConfusion hn⟩ <;>
          simp [add_memory_body, Json.getKey, assocLookup]
      · simp [hty] at h

/-- Witness for C6: content and tags are trimmed, blank tags dropped, type defaults
to `"note"`. -/
theorem C6_add_memory_body_fields_witness :
    (add_memory_body envK ⟨"  hi  ", "note", [" a ", "  ", "b"], none, none, none⟩).getKey
        "content" = some (.str "hi") ∧
    (add_memory_body envK ⟨"  hi  ", "note", [" a ", "  ", "b"], none, none, none⟩).getKey
        "tags" = some (.arr [Json.str "a", Json.str "b"]) ∧
    (add_memory_body envK ⟨"  hi  ", "note", [" a ", "  ", "b"], none, none, none⟩).getKey
        "type" = some (.str "note") := by
  obtain ⟨h1, h2, h3⟩ := C6_add_memory_body_fields "  hi  " none [" a ", "  ", "b"]
    none none none ⟨"  hi  ", "note", [" a ", "  ", "b"], none, none, none⟩ envK rfl
  exact ⟨h1, h2.trans (by rfl), h3 rfl⟩

/-- C7: a successful search response is `{ok: true, count, memories}` where
`memories` is the upstream result's `memories` field (defaulting to the empty list
when the result is not a mapping or lacks the field) and `count` is the length of
that list. -/
theorem C7_search_count_matches (env : String → Option String) (p : SearchParams)
    (t : Transport) (result : Json)
    (h : sdk_post env "/api/sdk/v1/memories/search" (search_body env p) t = .ok result) :
    (∀ xs, get_memories_field result = .arr xs →
      search_memories env p t = .success (.obj [("ok", .bool true),
        ("count", .num (Int.ofNat xs.length)), ("memories", .arr xs)])) ∧
    (result.getKey "memories" = none → get_memories_field result = .arr []) := by
  constructor
  · intro xs hxs
    unfold search_memories
    simp [h, hxs, pyLen]
  · intro hm
    cases result with
    | obj kvs =>
      simp only [Json.getKey] at hm
      simp [get_memories_field, hm]
    | null => rfl
    | bool b => rfl
    | num n => rfl
    | str s => rfl
    | arr xs => rfl

/-- Witness for C7 at the spec's example: upstream result
`{"memories": [{"id": 1}]}` yields `{"ok": true, "count": 1, "memories": [...]}`. -/
theorem C7_search_count_matches_witness :
    search_memories envK ⟨"test", 8, none, none, none, none, none⟩
        (.response 200 (some (.obj [("memories", .arr [.obj [("id", .num 1)]])]))) =
      .success (.obj [("ok", .bool true), ("count", .num 1),
        ("memories", .arr [.obj [("id", .num 1)]])]) :=
  (C7_search_count_matches envK ⟨"test", 8, none, none, none, none, none⟩
    (.response 200 (some (.obj [("memories", .arr [.obj [("id", .num 1)]])])))
    (.obj [("memories", .arr [.obj [("id", .num 1)]])]) rfl).1
    [.obj [("id", .num 1)]] rfl

/-- C8: with `MEMORIES_API_KEY` unset or blank after trimming, every upstream call
fails with the `validation_error` / `MISSING_ENV` detail at HTTP 500; with a
non-blank value the resolver returns the trimmed value; and `health`, which checks
nothing, always succeeds with `ok = true` — the check happens at point-of-use. -/
theorem C8_missing_config_point_of_use (env : String → Option String) :
    (pyStrip ((env "MEMORIES_API_KEY").getD "") = "" →
      ∀ ep pl t, sdk_post env ep pl t =
        .error ⟨500, missingEnvDetail "MEMORIES_API_KEY"⟩) ∧
    (pyStrip ((env "MEMORIES_API_KEY").getD "") ≠ "" →
      required_env env "MEMORIES_API_KEY" =
        .ok (pyStrip ((env "MEMORIES_API_KEY").getD ""))) ∧
    (health env).getKey "ok" = some (.bool true) ∧
    missingEnvDetail "MEMORIES_API_KEY" = .obj [("ok", .bool false),
      ("error", .obj [("type", .str "validation_error"), ("code", .str "MISSING_ENV"),
        ("message", .str "Missing environment variable: MEMORIES_API_KEY")])] := by
  refine ⟨?_, required_env_ok_of_ne env _, ?_, rfl⟩
  · intro hc ep pl t
    unfold sdk_post
    rw [required_env_error_of_eq env _ hc]
  · simp [health, Json.getKey, assocLookup]

/-- Witness for C8: the empty environment fails any upstream call with the
`MISSING_ENV` detail at 500, while a padded key resolves to its trimmed value. -/
theorem C8_missing_config_point_of_use_witness :
    sdk_post (fun _ => none) "/e" .null (.response 200 (some .null)) =
        .error ⟨500, missingEnvDetail "MEMORIES_API_KEY"⟩ ∧
    required_env (fun n => if n = "MEMORIES_API_KEY" then some " k " else none)
        "MEMORIES_API_KEY" = .ok "k" :=
  ⟨(C8_missing_config_point_of_use (fun _ => none)).1 (by decide) "/e" .null
      (.response 200 (some .null)),
   ((C8_missing_config_point_of_use
      (fun n => if n = "MEMORIES_API_KEY" then some " k " else none)).2.1
      (by decide)).trans (by rfl)⟩

theorem head_dropWhile_false {α : Type} (p : α → Bool) (l : List α) (x : α)
    (h : (l.dropWhile p).head? = some x) : p x = false := by
  induction l with
  | nil => cases h
  | cons a as ih =>
    rw [List.dropWhile_cons] at h
    split at h
    · exact ih h
    · next hpa =>
      simp only [List.head?_cons, Option.some.injEq] at h
      subst h
      simpa using hpa

/-- `rstrip('/')` leaves no trailing slash. -/
theorem rstripSlash_no_trailing (s : String) :
    (rstripSlash s).data.getLast? ≠ some '/' := by
  show ((s.data.reverse.dropWhile (fun c => c == '/')).reverse).getLast? ≠ some '/'
  intro hl
  rw [List.getLast?_reverse] at hl
  have hfe := head_dropWhile_false (fun c => c == '/') s.data.reverse '/' hl
  simp at hfe

/-- C9: base URL resolution returns the trimmed `MEMORIES_BASE_URL` when non-blank
and the fixed literal otherwise; the posted URL is the base URL with all trailing
slashes stripped followed by the endpoint path (so it never keeps a trailing slash
before concatenation); and with the variable unset, `health` reports the default
base URL. -/
theorem C9_base_url_resolution (env : String → Option String) (ep : String) :
    (pyStrip ((env "MEMORIES_BASE_URL").getD "") = "" →
      base_url env = "https://memories.sh") ∧
    (pyStrip ((env "MEMORIES_BASE_URL").getD "") ≠ "" →
      base_url env = pyStrip ((env "MEMORIES_BASE_URL").getD "")) ∧
    sdk_url env ep = rstripSlash (base_url env) ++ ep ∧
    (rstripSlash (base_url env)).data.getLast? ≠ some '/' ∧
    (env "MEMORIES_BASE_URL" = none →
      health env = .obj [("ok", .bool true), ("service", .str "memories-python-starter"),
        ("baseUrl", .str "https://memories.sh")]) := by
  refine ⟨?_, ?_, rfl, rstripSlash_no_trailing _, ?_⟩
  · intro hc
    cases he : env "MEMORIES_BASE_URL" with
    | none => simp [base_url, optionalTrim, he]
    | some v =>
      rw [he] at hc
      simp only [Option.getD_some] at hc
      simp [base_url, optionalTrim, he, hc]
  · intro hc
    cases he : env "MEMORIES_BASE_URL" with
    | none =>
      rw [he] at hc
      simp only [Option.getD_none] at hc
      exact absurd pyStrip_empty hc
    | some v =>
      rw [he] at hc
      simp only [Option.getD_some] at hc
      simp [base_url, optionalTrim, he, hc]
  · intro he
    simp [health, base_url, optionalTrim, he]

/-- Witness for C9: with `MEMORIES_BASE_URL` unset the base URL is the default
literal and `health` reports it. -/
theorem C9_base_url_resolution_witness :
    base_url (fun _ => none) = "https://memories.sh" ∧
    health (fun _ => none) = .obj [("ok", .bool true),
      ("service", .str "memories-python-starter"),
      ("baseUrl", .str "https://memories.sh")] :=
  ⟨(C9_base_url_resolution (fun _ => none) "/e").1 (by decide),
   (C9_base_url_resolution (fun _ => none) "/e").2.2.2.2 rfl⟩

end MemoriesStarter
